import Mathlib

/-!
Verification of the local credential / storage core of the Sentinel forensic
SOC demo application.  The definitions below are a shallow embedding of
`src/contexts/AuthContext.tsx` (credential service) and the
`DatabaseService` class (storage engine): byte buffers become `List Nat`
(each element < 256), the asynchronous IndexedDB store becomes an explicit
`DBState` record threaded through the operations, `localStorage` session
markers become an `Option SessionMarker` field, and PBKDF2 (an opaque
deterministic key-derivation primitive provided by `crypto.subtle`) becomes
an explicit function parameter `deriveHash : HashFn`.
-/

namespace Sentinel

/-- Base64 alphabet used by the browser's `btoa`/`atob`. -/
def b64chars : List Char :=
  "ABCDEFGHIJKLMNOPQRSTUVWXYZabcdefghijklmnopqrstuvwxyz0123456789+/".toList

/-- Pack a byte list (3 bytes at a time) into 6-bit groups, exactly as
`btoa` does on the latin-1 string built by `String.fromCharCode`. -/
def sextets : List Nat → List Nat
  | b0 :: b1 :: b2 :: rest =>
      b0 / 4 :: ((b0 % 4) * 16 + b1 / 16) :: ((b1 % 16) * 4 + b2 / 64) ::
        (b2 % 64) :: sextets rest
  | [b0, b1] => [b0 / 4, (b0 % 4) * 16 + b1 / 16, (b1 % 16) * 4]
  | [b0] => [b0 / 4, (b0 % 4) * 16]
  | [] => []

/-- Reassemble bytes from 6-bit groups, as `atob` followed by
`charCodeAt` does (trailing groups of 3 and 2 sextets produce 2 and 1
bytes respectively; the low bits carried by the last sextet are dropped). -/
def unsextets : List Nat → List Nat
  | s0 :: s1 :: s2 :: s3 :: rest =>
      (s0 * 4 + s1 / 16) :: ((s1 % 16) * 16 + s2 / 4) ::
        ((s2 % 4) * 64 + s3) :: unsextets rest
  | [s0, s1, s2] => [s0 * 4 + s1 / 16, (s1 % 16) * 16 + s2 / 4]
  | [s0, s1] => [s0 * 4 + s1 / 16]
  | [_] => []
  | [] => []

/-- Padding characters `btoa` appends: the argument is `bytes.length % 3`. -/
def b64padChars : Nat → List Char
  | 1 => ['=', '=']
  | 2 => ['=']
  | _ => []

/-- Function `arrayBufferToBase64` from AuthContext.tsx:
`btoa(String.fromCharCode(...new Uint8Array(buffer)))`. -/
def arrayBufferToBase64 (bytes : List Nat) : String :=
  String.mk ((sextets bytes).map (fun n => b64chars.getD n '?') ++
    b64padChars (bytes.length % 3))

/-- The value `atob` assigns to an alphabet character. -/
def b64index (c : Char) : Nat := b64chars.indexOf c

/-- Function `base64ToArrayBuffer` from AuthContext.tsx: `atob` the string and read
each code unit back as a byte. -/
def base64ToArrayBuffer (s : String) : List Nat :=
  unsextets ((s.toList.filter (fun c => c ≠ '=')).map b64index)

theorem sextets_lt (bytes : List Nat) (h : ∀ b ∈ bytes, b < 256) :
    ∀ x ∈ sextets bytes, x < 64 := by
  induction bytes using sextets.induct with
  | case1 b0 b1 b2 rest ih =>
      have hb0 : b0 < 256 := h b0 (by simp)
      have hb1 : b1 < 256 := h b1 (by simp)
      have hb2 : b2 < 256 := h b2 (by simp)
      have ih2 := ih (fun b hb => h b (by simp [hb]))
      intro x hx
      simp only [sextets, List.mem_cons] at hx
      rcases hx with rfl | rfl | rfl | rfl | hx
      · omega
      · omega
      · omega
      · omega
      · exact ih2 x hx
  | case2 b0 b1 =>
      have hb0 : b0 < 256 := h b0 (by simp)
      have hb1 : b1 < 256 := h b1 (by simp)
      intro x hx
      simp only [sextets, List.mem_cons, List.not_mem_nil, or_false] at hx
      rcases hx with rfl | rfl | rfl <;> omega
  | case3 b0 =>
      have hb0 : b0 < 256 := h b0 (by simp)
      intro x hx
      simp only [sextets, List.mem_cons, List.not_mem_nil, or_false] at hx
      rcases hx with rfl | rfl <;> omega
  | case4 =>
      intro x hx
      simp [sextets] at hx

theorem unsextets_sextets (bytes : List Nat) (h : ∀ b ∈ bytes, b < 256) :
    unsextets (sextets bytes) = bytes := by
  induction bytes using sextets.induct with
  | case1 b0 b1 b2 rest ih =>
      have hb0 : b0 < 256 := h b0 (by simp)
      have hb1 : b1 < 256 := h b1 (by simp)
      have hb2 : b2 < 256 := h b2 (by simp)
      have ih2 := ih (fun b hb => h b (by simp [hb]))
      simp only [sextets, unsextets, ih2, List.cons.injEq, and_true]
      refine ⟨?_, ?_, ?_⟩ <;> omega
  | case2 b0 b1 =>
      have hb0 : b0 < 256 := h b0 (by simp)
      have hb1 : b1 < 256 := h b1 (by simp)
      simp only [sextets, unsextets, List.cons.injEq, and_true]
      constructor <;> omega
  | case3 b0 =>
      have hb0 : b0 < 256 := h b0 (by simp)
      simp only [sextets, unsextets, List.cons.injEq, and_true]
      omega
  | case4 => rfl

theorem b64index_getD (n : Nat) (hn : n < 64) :
    b64index (b64chars.getD n '?') = n := by
  revert hn
  revert n
  decide

theorem b64chars_getD_ne_eq (n : Nat) (hn : n < 64) :
    b64chars.getD n '?' ≠ '=' := by
  revert hn
  revert n
  decide

theorem filter_b64padChars (m : Nat) :
    (b64padChars m).filter (fun c => c ≠ '=') = [] := by
  match m with
  | 0 => rfl
  | 1 => rfl
  | 2 => rfl
  | n + 3 => rfl

theorem map_id_of_mem {α : Type} (f : α → α) (l : List α)
    (h : ∀ x ∈ l, f x = x) : l.map f = l := by
  induction l with
  | nil => rfl
  | cons x xs ih =>
      simp only [List.map_cons, h x (List.mem_cons_self x xs),
        ih (fun y hy => h y (List.mem_cons_of_mem x hy))]

theorem base64_decode_encode (bytes : List Nat) (h : ∀ b ∈ bytes, b < 256) :
    base64ToArrayBuffer (arrayBufferToBase64 bytes) = bytes := by
  have hlt := sextets_lt bytes h
  unfold base64ToArrayBuffer arrayBufferToBase64
  have hstr : (String.mk ((sextets bytes).map (fun n => b64chars.getD n '?') ++
      b64padChars (bytes.length % 3))).toList =
      (sextets bytes).map (fun n => b64chars.getD n '?') ++
      b64padChars (bytes.length % 3) := rfl
  rw [hstr, List.filter_append, filter_b64padChars, List.append_nil]
  have h1 : ((sextets bytes).map (fun n => b64chars.getD n '?')).filter
      (fun c => c ≠ '=') = (sextets bytes).map (fun n => b64chars.getD n '?') := by
    rw [List.filter_eq_self]
    intro c hc
    rcases List.mem_map.mp hc with ⟨x, hx, rfl⟩
    simpa using b64chars_getD_ne_eq x (hlt x hx)
  have h2 : ((sextets bytes).map (fun n => b64chars.getD n '?')).map b64index
      = sextets bytes := by
    rw [List.map_map]
    exact map_id_of_mem _ _ (fun x hx => b64index_getD x (hlt x hx))
  rw [h1, h2, unsextets_sextets bytes h]

/-- C9: decoding an encoded byte buffer gives back exactly the original
bytes, so a salt stored base64-encoded at registration is recovered
verbatim at login. -/
theorem base64_roundtrip (bytes : List Nat) (h : ∀ b ∈ bytes, b < 256) :
    base64ToArrayBuffer (arrayBufferToBase64 bytes) = bytes :=
  base64_decode_encode bytes h

/-- C9 witness: the round trip evaluated at a concrete 16-byte salt. -/
theorem base64_roundtrip_witness :
    base64ToArrayBuffer (arrayBufferToBase64
      [0, 1, 2, 3, 250, 251, 252, 253, 254, 255, 10, 20, 30, 40, 50, 60]) =
      [0, 1, 2, 3, 250, 251, 252, 253, 254, 255, 10, 20, 30, 40, 50, 60] :=
  base64_roundtrip
    [0, 1, 2, 3, 250, 251, 252, 253, 254, 255, 10, 20, 30, 40, 50, 60]
    (by decide)

/-- Structure `AuditEntry` from dbService (collection `logs`, keyPath `id`). -/
structure AuditEntry where
  id : String
  operatorId : String
  action : String
  details : String
  timestamp : Nat
deriving Repr, DecidableEq

/-- Structure `UserProfile` from dbService (collection `users`, keyPath `id`);
`salt` is the base64-encoded salt string, `iterations` the PBKDF2 work
factor stored at registration. -/
structure UserProfile where
  id : String
  passwordHash : String
  salt : String
  iterations : Nat
deriving Repr, DecidableEq

/-- One record of the `investigations` collection: an `AnalysisState`
(opaque to this core, kept as `payload`) stamped with `operatorId` and a
write timestamp, keyed by `id`. -/
structure Investigation where
  id : String
  operatorId : String
  timestamp : Nat
  payload : String
deriving Repr, DecidableEq

/-- The three IndexedDB object stores of `SentinelForensicDB`. -/
structure DBState where
  users : List UserProfile
  investigations : List Investigation
  logs : List AuditEntry
deriving Repr, DecidableEq

/-- Method `DatabaseService.getUser`: primary-key lookup, `null` when absent. -/
def getUser (db : DBState) (id : String) : Option UserProfile :=
  db.users.find? (fun u => u.id == id)

/-- Method `DatabaseService.saveUser`: `put` semantics — upsert by primary key. -/
def saveUser (db : DBState) (profile : UserProfile) : DBState :=
  { db with users := db.users.filter (fun u => u.id != profile.id) ++ [profile] }

/-- Method `DatabaseService.logAction`: append one immutable audit entry with a
fresh id and the current timestamp. -/
def logAction (db : DBState) (logId : String) (now : Nat)
    (operatorId action details : String) : DBState :=
  { db with logs := db.logs ++ [⟨logId, operatorId, action, details, now⟩] }

/-- Method `DatabaseService.getInvestigations`: all records of the
`operatorId` secondary index. -/
def getInvestigations (db : DBState) (operatorId : String) : List Investigation :=
  db.investigations.filter (fun i => i.operatorId == operatorId)

/-- Method `DatabaseService.deleteInvestigation`: remove one record by key. -/
def deleteInvestigation (db : DBState) (id : String) : DBState :=
  { db with investigations := db.investigations.filter (fun i => i.id != id) }

/-- Method `DatabaseService.clearOperatorInvestigations`: snapshot the operator's
investigations, delete each by its id, then log one `BATCH_PURGE` entry
recording the snapshot's size. -/
def clearOperatorInvestigations (db : DBState) (operatorId : String)
    (logId : String) (now : Nat) : DBState :=
  let invs := getInvestigations db operatorId
  let db1 := { db with investigations :=
    db.investigations.filter (fun r => !(invs.any (fun i => i.id == r.id))) }
  logAction db1 logId now operatorId "BATCH_PURGE"
    ("Deleted " ++ toString invs.length ++ " records.")

/-- Insert an entry into a list already sorted by descending timestamp. -/
def insertLogDesc (e : AuditEntry) : List AuditEntry → List AuditEntry
  | [] => [e]
  | x :: xs =>
      if e.timestamp ≤ x.timestamp then x :: insertLogDesc e xs
      else e :: x :: xs

/-- The `sort((a, b) => b.timestamp - a.timestamp)` step of
`getRecentLogs`, as an insertion sort by descending timestamp (ties kept
in a fixed deterministic order). -/
def sortLogsDesc : List AuditEntry → List AuditEntry
  | [] => []
  | x :: xs => insertLogDesc x (sortLogsDesc xs)

/-- Method `DatabaseService.getRecentLogs`: the operator's audit entries sorted
by descending timestamp, truncated to `limit` (callers pass the default
20). -/
def getRecentLogs (db : DBState) (operatorId : String) (limit : Nat) :
    List AuditEntry :=
  (sortLogsDesc (db.logs.filter (fun e => e.operatorId == operatorId))).take limit

/-- The `localStorage` record under `sentinel_active_session`. -/
structure SessionMarker where
  id : String
  expiry : Nat
deriving Repr, DecidableEq

/-- React state of `AuthProvider` plus its two external stores: the
IndexedDB `db` and the `localStorage` session marker. -/
structure AuthState where
  db : DBState
  isAuthenticated : Bool
  operatorId : Option String
  sessionStore : Option SessionMarker
  lastError : Option String
deriving Repr, DecidableEq

/-- Constant `PBKDF2_ITERATIONS` from AuthContext.tsx: the default work factor
used for new registrations only. -/
def PBKDF2_ITERATIONS : Nat := 100000

/-- One day in milliseconds: the fixed session lifetime. -/
def SESSION_TTL : Nat := 1000 * 60 * 60 * 24

def accessDeniedMsg : String :=
  "ACCESS_DENIED: Identity not found in secure registry."

def invalidCredentialsMsg : String :=
  "IDENTITY_VERIFICATION_FAILED: Invalid credentials."

def duplicateIdMsg : String :=
  "PROVISIONING_ERROR: ID already registered."

/-- JS `String.prototype.toUpperCase` as used on operator ids:
character-wise upper-casing. -/
def toUpperCase (s : String) : String := String.mk (s.data.map Char.toUpper)

/-- The type of the PBKDF2-SHA256 derivation performed by `deriveHash`
via `crypto.subtle`: password, salt bytes and iteration count to a
base64-encoded 32-byte hash.  It is an opaque deterministic primitive,
so the embedding takes it as a parameter. -/
def HashFn : Type := String → List Nat → Nat → String

/-- Function `login` from AuthContext.tsx.  `deriveHash` is the PBKDF2 primitive,
`now` the current time, `logId` the fresh audit-entry id.  Returns the
new state and the call's outcome (`Except` message mirrors `throw`). -/
def login (deriveHash : HashFn) (now : Nat) (logId : String)
    (s : AuthState) (id passkey : String) : AuthState × Except String Unit :=
  let s0 := { s with lastError := none }
  let normalizedId := (toUpperCase id)
  match getUser s0.db normalizedId with
  | none =>
      ({ s0 with lastError := some accessDeniedMsg }, .error accessDeniedMsg)
  | some user =>
      let saltBuffer := base64ToArrayBuffer user.salt
      let hashedInput := deriveHash passkey saltBuffer user.iterations
      if user.passwordHash == hashedInput then
        ({ s0 with
            isAuthenticated := true
            operatorId := some normalizedId
            sessionStore := some ⟨normalizedId, now + SESSION_TTL⟩
            db := logAction s0.db logId now normalizedId "LOGIN"
              "Standard biometric handshake complete." }, .ok ())
      else
        ({ s0 with
            db := logAction s0.db logId now normalizedId "LOGIN_FAIL"
              "Invalid passkey provided."
            lastError := some invalidCredentialsMsg },
          .error invalidCredentialsMsg)

/-- Function `register` from AuthContext.tsx.  `salt` is the buffer produced by
`crypto.getRandomValues(new Uint8Array(16))`, passed explicitly. -/
def register (deriveHash : HashFn) (now : Nat) (logId : String)
    (salt : List Nat) (s : AuthState) (id passkey : String) :
    AuthState × Except String Unit :=
  let s0 := { s with lastError := none }
  let normalizedId := (toUpperCase id)
  match getUser s0.db normalizedId with
  | some _ =>
      ({ s0 with lastError := some duplicateIdMsg }, .error duplicateIdMsg)
  | none =>
      let hash := deriveHash passkey salt PBKDF2_ITERATIONS
      let profile : UserProfile :=
        ⟨normalizedId, hash, arrayBufferToBase64 salt, PBKDF2_ITERATIONS⟩
      let db1 := saveUser s0.db profile
      let db2 := logAction db1 logId now normalizedId "REGISTRATION"
        "New operator profile provisioned."
      ({ s0 with
          db := db2
          isAuthenticated := true
          operatorId := some normalizedId
          sessionStore := some ⟨normalizedId, now + SESSION_TTL⟩ }, .ok ())

/-- The session-restore effect run once at `AuthProvider` startup: reads
the persisted marker, restores it as an active session only when
`now < expiry`, and evicts an expired marker from storage.  Returns the
resulting `(isAuthenticated, operatorId, sessionStore)` triple from the
initial `(false, none, stored)` state. -/
def restoreSession (now : Nat) (stored : Option SessionMarker) :
    Bool × Option String × Option SessionMarker :=
  match stored with
  | none => (false, none, none)
  | some m =>
      if now < m.expiry then (true, some m.id, some m)
      else (false, none, none)

/-- Cost, in character comparisons, of the short-circuiting
left-to-right string comparison behind the `===` check of `login`
(line 90 of AuthContext.tsx): it stops at the first differing
character. -/
def scEqCost : List Char → List Char → Nat
  | a :: as, b :: bs => if a = b then 1 + scEqCost as bs else 1
  | _, _ => 0

theorem getUser_logAction (db : DBState) (logId : String) (now : Nat)
    (op act det : String) (i : String) :
    getUser (logAction db logId now op act det) i = getUser db i := rfl

theorem getUser_saveUser_self (db : DBState) (p : UserProfile) :
    getUser (saveUser db p) p.id = some p := by
  unfold getUser saveUser
  simp only
  rw [List.find?_append]
  have h1 : (db.users.filter (fun u => u.id != p.id)).find?
      (fun u => u.id == p.id) = none := by
    rw [List.find?_eq_none]
    intro x hx
    have hne := List.of_mem_filter hx
    simp only [bne_iff_ne, ne_eq] at hne
    simp [hne]
  rw [h1]
  simp [List.find?]

theorem register_ok (deriveHash : HashFn) (now : Nat) (logId : String)
    (salt : List Nat) (s : AuthState) (id passkey : String)
    (hfresh : getUser s.db (toUpperCase id) = none) :
    register deriveHash now logId salt s id passkey =
      ({ s with
          db := logAction (saveUser s.db
              ⟨(toUpperCase id), deriveHash passkey salt PBKDF2_ITERATIONS,
                arrayBufferToBase64 salt, PBKDF2_ITERATIONS⟩)
            logId now (toUpperCase id) "REGISTRATION"
            "New operator profile provisioned."
          isAuthenticated := true
          operatorId := some (toUpperCase id)
          sessionStore := some ⟨(toUpperCase id), now + SESSION_TTL⟩
          lastError := none }, .ok ()) := by
  unfold register
  simp only [hfresh]

theorem login_ok (deriveHash : HashFn) (now : Nat) (logId : String)
    (s : AuthState) (id passkey : String) (u : UserProfile)
    (hu : getUser s.db (toUpperCase id) = some u)
    (hmatch : u.passwordHash =
      deriveHash passkey (base64ToArrayBuffer u.salt) u.iterations) :
    login deriveHash now logId s id passkey =
      ({ s with
          isAuthenticated := true
          operatorId := some (toUpperCase id)
          sessionStore := some ⟨(toUpperCase id), now + SESSION_TTL⟩
          db := logAction s.db logId now (toUpperCase id) "LOGIN"
            "Standard biometric handshake complete."
          lastError := none }, .ok ()) := by
  unfold login
  simp only [hu]
  simp [hmatch]

theorem login_notfound (deriveHash : HashFn) (now : Nat) (logId : String)
    (s : AuthState) (id passkey : String)
    (hu : getUser s.db (toUpperCase id) = none) :
    login deriveHash now logId s id passkey =
      ({ s with lastError := some accessDeniedMsg }, .error accessDeniedMsg) := by
  unfold login
  simp only [hu]

theorem login_mismatch (deriveHash : HashFn) (now : Nat) (logId : String)
    (s : AuthState) (id passkey : String) (u : UserProfile)
    (hu : getUser s.db (toUpperCase id) = some u)
    (hne : u.passwordHash ≠
      deriveHash passkey (base64ToArrayBuffer u.salt) u.iterations) :
    login deriveHash now logId s id passkey =
      ({ s with
          db := logAction s.db logId now (toUpperCase id) "LOGIN_FAIL"
            "Invalid passkey provided."
          lastError := some invalidCredentialsMsg },
        .error invalidCredentialsMsg) := by
  unfold login
  simp only [hu]
  simp [hne]

theorem register_dup (deriveHash : HashFn) (now : Nat) (logId : String)
    (salt : List Nat) (s : AuthState) (id passkey : String) (u : UserProfile)
    (hu : getUser s.db (toUpperCase id) = some u) :
    register deriveHash now logId salt s id passkey =
      ({ s with lastError := some duplicateIdMsg }, .error duplicateIdMsg) := by
  unfold register
  simp only [hu]

/-- C1: registering a fresh (id, passkey) pair and then logging in with
any case variant of the id and the same passkey succeeds, and the
resulting session's operatorId equals the uppercase-normalized id. -/
theorem register_then_login_succeeds (deriveHash : HashFn)
    (s : AuthState) (id id2 passkey : String) (salt : List Nat)
    (now now2 : Nat) (logId logId2 : String)
    (hfresh : getUser s.db (toUpperCase id) = none)
    (hsalt : ∀ b ∈ salt, b < 256)
    (hid : (toUpperCase id2) = (toUpperCase id)) :
    (register deriveHash now logId salt s id passkey).2 = .ok () ∧
    (login deriveHash now2 logId2
      (register deriveHash now logId salt s id passkey).1 id2 passkey).2
      = .ok () ∧
    (login deriveHash now2 logId2
      (register deriveHash now logId salt s id passkey).1
      id2 passkey).1.isAuthenticated = true ∧
    (login deriveHash now2 logId2
      (register deriveHash now logId salt s id passkey).1
      id2 passkey).1.operatorId = some (toUpperCase id) := by
  rw [register_ok deriveHash now logId salt s id passkey hfresh]
  have hu : getUser
      (logAction (saveUser s.db
          ⟨(toUpperCase id), deriveHash passkey salt PBKDF2_ITERATIONS,
            arrayBufferToBase64 salt, PBKDF2_ITERATIONS⟩)
        logId now (toUpperCase id) "REGISTRATION"
        "New operator profile provisioned.") (toUpperCase id2) =
      some ⟨(toUpperCase id), deriveHash passkey salt PBKDF2_ITERATIONS,
        arrayBufferToBase64 salt, PBKDF2_ITERATIONS⟩ := by
    rw [getUser_logAction, hid]
    exact getUser_saveUser_self s.db
      ⟨(toUpperCase id), deriveHash passkey salt PBKDF2_ITERATIONS,
        arrayBufferToBase64 salt, PBKDF2_ITERATIONS⟩
  have hmatch : (⟨(toUpperCase id), deriveHash passkey salt PBKDF2_ITERATIONS,
      arrayBufferToBase64 salt, PBKDF2_ITERATIONS⟩ : UserProfile).passwordHash =
      deriveHash passkey
        (base64ToArrayBuffer
          (⟨(toUpperCase id), deriveHash passkey salt PBKDF2_ITERATIONS,
            arrayBufferToBase64 salt, PBKDF2_ITERATIONS⟩ : UserProfile).salt)
        (⟨(toUpperCase id), deriveHash passkey salt PBKDF2_ITERATIONS,
          arrayBufferToBase64 salt, PBKDF2_ITERATIONS⟩ : UserProfile).iterations := by
    show deriveHash passkey salt PBKDF2_ITERATIONS =
      deriveHash passkey (base64ToArrayBuffer (arrayBufferToBase64 salt))
        PBKDF2_ITERATIONS
    rw [base64_decode_encode salt hsalt]
  rw [login_ok deriveHash now2 logId2 _ id2 passkey _ hu hmatch]
  exact ⟨rfl, rfl, rfl, by rw [hid]⟩

/-- A concrete deterministic stand-in for the PBKDF2 primitive, used only
to evaluate the theorems at concrete inputs. -/
def testHash : HashFn :=
  fun password salt iterations =>
    password ++ "|" ++ toString salt ++ "|" ++ toString iterations

/-- Fresh browser state: empty database, no session. -/
def emptyAuth : AuthState := ⟨⟨[], [], []⟩, false, none, none, none⟩

def testSalt : List Nat := [0, 1, 2, 3, 4, 5, 6, 7, 8, 9, 10, 11, 12, 13, 14, 15]

/-- C1 witness: register "soc-alpha" / "Secret123!" then login with the
case variant "SOC-ALPHA" succeeds and yields the normalized operator id. -/
theorem register_then_login_succeeds_witness :
    (register testHash 0 "LOG-1" testSalt emptyAuth "soc-alpha" "Secret123!").2
      = .ok () ∧
    (login testHash 1 "LOG-2"
      (register testHash 0 "LOG-1" testSalt emptyAuth "soc-alpha" "Secret123!").1
      "SOC-ALPHA" "Secret123!").2 = .ok () ∧
    (login testHash 1 "LOG-2"
      (register testHash 0 "LOG-1" testSalt emptyAuth "soc-alpha" "Secret123!").1
      "SOC-ALPHA" "Secret123!").1.isAuthenticated = true ∧
    (login testHash 1 "LOG-2"
      (register testHash 0 "LOG-1" testSalt emptyAuth "soc-alpha" "Secret123!").1
      "SOC-ALPHA" "Secret123!").1.operatorId = some (toUpperCase "soc-alpha") :=
  register_then_login_succeeds testHash emptyAuth "soc-alpha" "SOC-ALPHA"
    "Secret123!" testSalt 0 1 "LOG-1" "LOG-2" (by decide) (by decide) (by decide)

/-- C2: login verifies against the hash derived with the user's stored
salt and stored iteration count — here one different from the current
default PBKDF2_ITERATIONS — so a correct passkey still logs in. -/
theorem login_uses_stored_iterations (deriveHash : HashFn) (now : Nat)
    (logId : String) (s : AuthState) (id passkey : String) (u : UserProfile)
    (hu : getUser s.db (toUpperCase id) = some u)
    (hiter : u.iterations ≠ PBKDF2_ITERATIONS)
    (hmatch : u.passwordHash =
      deriveHash passkey (base64ToArrayBuffer u.salt) u.iterations) :
    (login deriveHash now logId s id passkey).2 = .ok () ∧
    (login deriveHash now logId s id passkey).1.isAuthenticated = true := by
  rw [login_ok deriveHash now logId s id passkey u hu hmatch]
  exact ⟨rfl, rfl⟩

/-- A user stored with a legacy work factor of 123 iterations (salt
"AQID", i.e. bytes [1, 2, 3]). -/
def legacyUser : UserProfile :=
  ⟨"OP-7", testHash "Secret123!" (base64ToArrayBuffer "AQID") 123, "AQID", 123⟩

def legacyAuth : AuthState := ⟨⟨[legacyUser], [], []⟩, false, none, none, none⟩

/-- C2 witness: the legacy user logs in although their stored iteration
count (123) differs from the default (100000). -/
theorem login_uses_stored_iterations_witness :
    (login testHash 5 "LOG-3" legacyAuth "op-7" "Secret123!").2 = .ok () ∧
    (login testHash 5 "LOG-3" legacyAuth "op-7" "Secret123!").1.isAuthenticated
      = true :=
  login_uses_stored_iterations testHash 5 "LOG-3" legacyAuth "op-7"
    "Secret123!" legacyUser (by decide) (by decide) (by decide)

/-- C5: registering an id whose uppercase normalization matches an
existing user fails with the duplicate-identity error and leaves the user
collection (indeed the whole database) unchanged. -/
theorem register_duplicate_fails (deriveHash : HashFn) (now : Nat)
    (logId : String) (salt : List Nat) (s : AuthState) (id passkey : String)
    (u : UserProfile) (hu : getUser s.db (toUpperCase id) = some u) :
    (register deriveHash now logId salt s id passkey).2
      = .error duplicateIdMsg ∧
    (register deriveHash now logId salt s id passkey).1.db.users
      = s.db.users ∧
    (register deriveHash now logId salt s id passkey).1.db = s.db := by
  rw [register_dup deriveHash now logId salt s id passkey u hu]
  exact ⟨rfl, rfl, rfl⟩

/-- C5 witness: re-registering "Op-7" (collides case-insensitively with
the stored "OP-7") fails and writes nothing. -/
theorem register_duplicate_fails_witness :
    (register testHash 9 "LOG-4" testSalt legacyAuth "Op-7" "Other1!").2
      = .error duplicateIdMsg ∧
    (register testHash 9 "LOG-4" testSalt legacyAuth "Op-7" "Other1!").1.db.users
      = legacyAuth.db.users ∧
    (register testHash 9 "LOG-4" testSalt legacyAuth "Op-7" "Other1!").1.db
      = legacyAuth.db :=
  register_duplicate_fails testHash 9 "LOG-4" testSalt legacyAuth "Op-7"
    "Other1!" legacyUser (by decide)

/-- C6: login with a passkey whose derived hash differs from the stored
hash fails with the invalid-credentials error, appends exactly one
LOGIN_FAIL audit entry, and does not establish a session. -/
theorem login_wrong_passkey (deriveHash : HashFn) (now : Nat) (logId : String)
    (s : AuthState) (id passkey : String) (u : UserProfile)
    (hu : getUser s.db (toUpperCase id) = some u)
    (hne : u.passwordHash ≠
      deriveHash passkey (base64ToArrayBuffer u.salt) u.iterations) :
    (login deriveHash now logId s id passkey).2
      = .error invalidCredentialsMsg ∧
    (login deriveHash now logId s id passkey).1.db.logs =
      s.db.logs ++ [⟨logId, toUpperCase id, "LOGIN_FAIL",
        "Invalid passkey provided.", now⟩] ∧
    (login deriveHash now logId s id passkey).1.isAuthenticated
      = s.isAuthenticated ∧
    (login deriveHash now logId s id passkey).1.sessionStore
      = s.sessionStore := by
  rw [login_mismatch deriveHash now logId s id passkey u hu hne]
  exact ⟨rfl, rfl, rfl, rfl⟩

/-- C6 witness: a wrong-case passkey ("secret123!") fails against the
stored user and appends one LOGIN_FAIL entry. -/
theorem login_wrong_passkey_witness :
    (login testHash 6 "LOG-5" legacyAuth "op-7" "secret123!").2
      = .error invalidCredentialsMsg ∧
    (login testHash 6 "LOG-5" legacyAuth "op-7" "secret123!").1.db.logs =
      legacyAuth.db.logs ++ [⟨"LOG-5", toUpperCase "op-7", "LOGIN_FAIL",
        "Invalid passkey provided.", 6⟩] ∧
    (login testHash 6 "LOG-5" legacyAuth "op-7" "secret123!").1.isAuthenticated
      = legacyAuth.isAuthenticated ∧
    (login testHash 6 "LOG-5" legacyAuth "op-7" "secret123!").1.sessionStore
      = legacyAuth.sessionStore :=
  login_wrong_passkey testHash 6 "LOG-5" legacyAuth "op-7" "secret123!"
    legacyUser (by decide) (by decide)

/-- C10: every failed login — identity not found or invalid credentials —
leaves isAuthenticated false, operatorId null, and the persisted session
marker untouched. -/
theorem login_failure_preserves_state (deriveHash : HashFn) (now : Nat)
    (logId : String) (s : AuthState) (id passkey msg : String)
    (hA : s.isAuthenticated = false) (hO : s.operatorId = none)
    (herr : (login deriveHash now logId s id passkey).2 = .error msg) :
    (login deriveHash now logId s id passkey).1.isAuthenticated = false ∧
    (login deriveHash now logId s id passkey).1.operatorId = none ∧
    (login deriveHash now logId s id passkey).1.sessionStore
      = s.sessionStore := by
  rcases hgu : getUser s.db (toUpperCase id) with _ | u
  · rw [login_notfound deriveHash now logId s id passkey hgu]
    exact ⟨hA, hO, rfl⟩
  · by_cases hmatch : u.passwordHash =
        deriveHash passkey (base64ToArrayBuffer u.salt) u.iterations
    · rw [login_ok deriveHash now logId s id passkey u hgu hmatch] at herr
      simp at herr
    · rw [login_mismatch deriveHash now logId s id passkey u hgu hmatch]
      exact ⟨hA, hO, rfl⟩

/-- C10 witness: a login against an unknown identity fails and leaves the
fresh state's authentication fields and session storage unchanged. -/
theorem login_failure_preserves_state_witness :
    (login testHash 3 "LOG-6" emptyAuth "ghost" "pw").1.isAuthenticated
      = false ∧
    (login testHash 3 "LOG-6" emptyAuth "ghost" "pw").1.operatorId = none ∧
    (login testHash 3 "LOG-6" emptyAuth "ghost" "pw").1.sessionStore
      = emptyAuth.sessionStore :=
  login_failure_preserves_state testHash 3 "LOG-6" emptyAuth "ghost" "pw"
    accessDeniedMsg rfl rfl rfl

/-- C7: at startup an expired session marker is not restored and is
evicted from storage, while a marker with expiry in the future is
restored as the active session of its operator. -/
theorem restoreSession_expiry (now : Nat) (m : SessionMarker) :
    (m.expiry ≤ now →
      restoreSession now (some m) = (false, none, none)) ∧
    (now < m.expiry →
      restoreSession now (some m) = (true, some m.id, some m)) := by
  constructor
  · intro h
    simp only [restoreSession]
    rw [if_neg (by omega)]
  · intro h
    simp only [restoreSession]
    rw [if_pos h]

/-- C7 witness: an expired marker (expiry 5, now 10) is discarded and
evicted; an unexpired one (expiry 99) is restored. -/
theorem restoreSession_expiry_witness :
    restoreSession 10 (some ⟨"OP-1", 5⟩) = (false, none, none) ∧
    restoreSession 10 (some ⟨"OP-2", 99⟩) = (true, some "OP-2", some ⟨"OP-2", 99⟩) :=
  ⟨(restoreSession_expiry 10 ⟨"OP-1", 5⟩).1 (by decide),
   (restoreSession_expiry 10 ⟨"OP-2", 99⟩).2 (by decide)⟩

theorem insertLogDesc_perm (e : AuditEntry) (l : List AuditEntry) :
    List.Perm (insertLogDesc e l) (e :: l) := by
  induction l with
  | nil => exact List.Perm.refl _
  | cons y ys ih =>
      unfold insertLogDesc
      by_cases h : e.timestamp ≤ y.timestamp
      · rw [if_pos h]
        exact List.Perm.trans (List.Perm.cons y ih) (List.Perm.swap e y ys)
      · rw [if_neg h]

theorem sortLogsDesc_perm (l : List AuditEntry) :
    List.Perm (sortLogsDesc l) l := by
  induction l with
  | nil => exact List.Perm.refl _
  | cons x xs ih =>
      unfold sortLogsDesc
      exact List.Perm.trans (insertLogDesc_perm x _) (List.Perm.cons x ih)

theorem sorted_insertLogDesc (e : AuditEntry) (l : List AuditEntry)
    (h : List.Pairwise (fun a b => b.timestamp ≤ a.timestamp) l) :
    List.Pairwise (fun a b => b.timestamp ≤ a.timestamp) (insertLogDesc e l) := by
  induction l with
  | nil => simp [insertLogDesc]
  | cons y ys ih =>
      rcases List.pairwise_cons.mp h with ⟨hy, hys⟩
      unfold insertLogDesc
      by_cases hc : e.timestamp ≤ y.timestamp
      · rw [if_pos hc]
        rw [List.pairwise_cons]
        refine ⟨?_, ih hys⟩
        intro z hz
        rcases List.mem_cons.mp ((insertLogDesc_perm e ys).mem_iff.mp hz) with
          rfl | hz2
        · exact hc
        · exact hy z hz2
      · rw [if_neg hc]
        rw [List.pairwise_cons]
        refine ⟨?_, h⟩
        intro z hz
        rcases List.mem_cons.mp hz with rfl | hz
        · omega
        · have := hy z hz
          omega

theorem sorted_sortLogsDesc (l : List AuditEntry) :
    List.Pairwise (fun a b => b.timestamp ≤ a.timestamp) (sortLogsDesc l) := by
  induction l with
  | nil => simp [sortLogsDesc]
  | cons x xs ih =>
      unfold sortLogsDesc
      exact sorted_insertLogDesc x _ ih

/-- C3: getRecentLogs returns at most `limit` entries (callers use the
default 20), all owned by the requested operator, in descending-timestamp
order (ties resolved by the fixed deterministic insertion order), and the
empty list when the operator has no entries; as a total function it never
fails. -/
theorem getRecentLogs_spec (db : DBState) (op : String) (limit : Nat) :
    (getRecentLogs db op limit).length ≤ limit ∧
    (∀ e ∈ getRecentLogs db op limit, e.operatorId = op) ∧
    List.Pairwise (fun a b => b.timestamp ≤ a.timestamp)
      (getRecentLogs db op limit) ∧
    (db.logs.filter (fun e => e.operatorId == op) = [] →
      getRecentLogs db op limit = []) := by
  refine ⟨?_, ?_, ?_, ?_⟩
  · unfold getRecentLogs
    rw [List.length_take]
    exact min_le_left _ _
  · intro e he
    unfold getRecentLogs at he
    have h1 := List.mem_of_mem_take he
    have h2 := (sortLogsDesc_perm _).mem_iff.mp h1
    have h3 := List.mem_filter.mp h2
    simpa using h3.2
  · exact List.Pairwise.sublist (List.take_sublist _ _) (sorted_sortLogsDesc _)
  · intro h
    unfold getRecentLogs
    rw [h]
    simp [sortLogsDesc]

/-- A concrete log store: three entries for OP-1 (timestamps 5, 9, 9) and
one for OP-2. -/
def logsDb : DBState :=
  ⟨[], [], [⟨"L1", "OP-1", "LOGIN", "d1", 5⟩, ⟨"L2", "OP-2", "LOGIN", "d2", 7⟩,
    ⟨"L3", "OP-1", "LOGIN_FAIL", "d3", 9⟩, ⟨"L4", "OP-1", "LOGIN", "d4", 9⟩]⟩

/-- C3 witness: the spec instantiated at the concrete store with limit 2;
the final implication is dischargeable at operator OP-9 who owns no
entries. -/
theorem getRecentLogs_spec_witness :
    ((getRecentLogs logsDb "OP-1" 2).length ≤ 2 ∧
      (∀ e ∈ getRecentLogs logsDb "OP-1" 2, e.operatorId = "OP-1") ∧
      List.Pairwise (fun a b => b.timestamp ≤ a.timestamp)
        (getRecentLogs logsDb "OP-1" 2) ∧
      (logsDb.logs.filter (fun e => e.operatorId == "OP-1") = [] →
        getRecentLogs logsDb "OP-1" 2 = [])) ∧
    getRecentLogs logsDb "OP-9" 20 = [] :=
  ⟨getRecentLogs_spec logsDb "OP-1" 2,
   (getRecentLogs_spec logsDb "OP-9" 20).2.2.2 (by decide)⟩

/-- C4: after clearOperatorInvestigations the operator owns no
investigation records, exactly one BATCH_PURGE audit entry has been
appended, and its recorded count equals the number of records the
operator had immediately before the call (the snapshot read in the same
call); the user collection is untouched. -/
theorem clearOperatorInvestigations_spec (db : DBState) (op logId : String)
    (now : Nat) :
    getInvestigations (clearOperatorInvestigations db op logId now) op = [] ∧
    (clearOperatorInvestigations db op logId now).logs =
      db.logs ++ [⟨logId, op, "BATCH_PURGE",
        "Deleted " ++ toString (getInvestigations db op).length ++ " records.",
        now⟩] ∧
    (clearOperatorInvestigations db op logId now).users = db.users := by
  refine ⟨?_, rfl, rfl⟩
  show (db.investigations.filter
      (fun r => !((getInvestigations db op).any (fun i => i.id == r.id)))).filter
      (fun i => i.operatorId == op) = []
  rw [List.filter_filter]
  rw [List.filter_eq_nil_iff]
  intro r hr
  simp only [Bool.and_eq_true, Bool.not_eq_true', beq_iff_eq, not_and]
  intro hop hany
  rw [List.any_eq_false] at hany
  have hmem : r ∈ getInvestigations db op :=
    List.mem_filter.mpr ⟨hr, by simp [hop]⟩
  have hfalse := hany r hmem
  simp at hfalse

/-- C8 (refuting constant-time comparison): under a sequential
character-comparison cost model of the string equality at line 90 of
AuthContext.tsx, two wrong candidate hashes of equal length cost a
different number of comparisons against the same stored hash "AAAA",
because the comparison short-circuits at the first mismatch: the cost is
proportional to the matching prefix length, not constant. -/
theorem hash_compare_not_constant_time :
    ("AAAX" : String).length = ("XAAA" : String).length ∧
    scEqCost "AAAX".toList "AAAA".toList = 4 ∧
    scEqCost "XAAA".toList "AAAA".toList = 1 ∧
    scEqCost "AAAX".toList "AAAA".toList ≠ scEqCost "XAAA".toList "AAAA".toList
    := by
  refine ⟨rfl, rfl, rfl, ?_⟩
  decide
